import Mathlib

/-!
Verification of the mongoclaw enrichment runtime against its specification.

The definitions below are shallow embeddings of the Python source under
`src/mongoclaw/`:
  * `dispatcher/work_item.py` (work items, retry accounting, hashing,
    idempotency keys),
  * `result/writer.py` and `result/strategies.py` (idempotent writeback),
  * `worker/agent_worker.py` and `worker/executor.py` (failure handling and
    the execution pipeline),
  * `dispatcher/agent_dispatcher.py` (backpressure admission),
  * `watcher/event_matcher.py` (event-to-agent matching),
  * `agents/models.py` (configuration validation),
  * `watcher/leader_election.py` (lease-based leader election, as a step
    relation on an explicit state).

Python/JSON values are modelled by the mutual inductive `PVal`/`PArr`/`PObj`
(dictionaries as insertion-ordered association lists, mirroring Python
dicts).  Machine-level hashing (MD5, SHA-256) is implemented concretely over
`Nat` so that concrete key computations can be evaluated by the kernel.
-/

/- Python/JSON values: strings, ints, bools, None, floats (as rationals,
used only as opaque scalars), datetimes (carrying their ISO rendering, the
form both hash normalizers convert them to), arrays and objects.
Objects are insertion-ordered association lists, mirroring Python dicts. -/
mutual

inductive PVal where
  | vstr (s : String)
  | vint (n : Int)
  | vbool (b : Bool)
  | vnull
  | vfloat (q : Rat)
  | vdt (iso : String)
  | varr (l : PArr)
  | vobj (o : PObj)

inductive PArr where
  | anil
  | acons (v : PVal) (tl : PArr)

inductive PObj where
  | onil
  | ocons (k : String) (v : PVal) (tl : PObj)

end

/-- Lookup of a key in a Python dict (first occurrence). -/
def objGet : PObj → String → Option PVal
  | .onil, _ => none
  | .ocons k v tl, key => if k == key then some v else objGet tl key

/-- `d[key] = val` on a Python dict: overwrite in place, else append. -/
def objSet : PObj → String → PVal → PObj
  | .onil, key, val => .ocons key val .onil
  | .ocons k v tl, key, val =>
      if k == key then .ocons k val tl else .ocons k v (objSet tl key val)

/-- Number of entries of an object. -/
def objLen : PObj → Nat
  | .onil => 0
  | .ocons _ _ tl => objLen tl + 1

/-- Python truthiness of an optional dict (`None` and `{}` are falsy). -/
def truthyOptObj : Option PObj → Bool
  | none => false
  | some .onil => false
  | some (.ocons _ _ _) => true

/-- Python truthiness of an optional string (`None` and `""` are falsy). -/
def truthyOptStr : Option String → Bool
  | none => false
  | some s => !(s == "")

/-- UTF-8 encoding of one character (code point to bytes). -/
def utf8EncChar (c : Char) : List Nat :=
  let n := c.toNat
  if n < 128 then [n]
  else if n < 2048 then [192 + n / 64, 128 + n % 64]
  else if n < 65536 then [224 + n / 4096, 128 + n / 64 % 64, 128 + n % 64]
  else [240 + n / 262144, 128 + n / 4096 % 64, 128 + n / 64 % 64, 128 + n % 64]

/-- UTF-8 encoding of a string, as a byte list (`str.encode()`). -/
def utf8Bytes (s : String) : List Nat :=
  s.data.flatMap utf8EncChar

/-- Truncate to 32 bits. -/
def m32 (x : Nat) : Nat := x % 4294967296

/-- 32-bit left rotation. -/
def rotl32 (x c : Nat) : Nat :=
  m32 (Nat.lor (m32 (Nat.shiftLeft x c)) (Nat.shiftRight x (32 - c)))

/-- 32-bit bitwise complement. -/
def not32 (x : Nat) : Nat := Nat.xor x 4294967295

/-- Little-endian byte rendering of a number, `n` bytes. -/
def leBytes : Nat → Nat → List Nat
  | 0, _ => []
  | n + 1, x => (x % 256) :: leBytes n (x / 256)

/-- Hex digit character. -/
def hexDigit (n : Nat) : Char :=
  if n < 10 then Char.ofNat (48 + n) else Char.ofNat (87 + n)

/-- Lowercase hex rendering of a byte list (`hexdigest()`). -/
def bytesToHex (bs : List Nat) : String :=
  String.mk (bs.flatMap (fun b => [hexDigit (b / 16 % 16), hexDigit (b % 16)]))

/-- MD5 per-round shift amounts. -/
def md5S : List Nat :=
  [7, 12, 17, 22, 7, 12, 17, 22, 7, 12, 17, 22, 7, 12, 17, 22,
   5, 9, 14, 20, 5, 9, 14, 20, 5, 9, 14, 20, 5, 9, 14, 20,
   4, 11, 16, 23, 4, 11, 16, 23, 4, 11, 16, 23, 4, 11, 16, 23,
   6, 10, 15, 21, 6, 10, 15, 21, 6, 10, 15, 21, 6, 10, 15, 21]

/-- MD5 sine-derived constants. -/
def md5K : List Nat :=
  [3614090360, 3905402710, 606105819, 3250441966,
   4118548399, 1200080426, 2821735955, 4249261313,
   1770035416, 2336552879, 4294925233, 2304563134,
   1804603682, 4254626195, 2792965006, 1236535329,
   4129170786, 3225465664, 643717713, 3921069994,
   3593408605, 38016083, 3634488961, 3889429448,
   568446438, 3275163606, 4107603335, 1163531501,
   2850285829, 4243563512, 1735328473, 2368359562,
   4294588738, 2272392833, 1839030562, 4259657740,
   2763975236, 1272893353, 4139469664, 3200236656,
   681279174, 3936430074, 3572445317, 76029189,
   3654602809, 3873151461, 530742520, 3299628645,
   4096336452, 1126891415, 2878612391, 4237533241,
   1700485571, 2399980690, 4293915773, 2240044497,
   1873313359, 4264355552, 2734768916, 1309151649,
   4149444226, 3174756917, 718787259, 3951481745]

/-- One MD5 round on state `(a, b, c, d)` with message words `M`. -/
def md5Round (M : List Nat) (st : Nat × Nat × Nat × Nat) (i : Nat) :
    Nat × Nat × Nat × Nat :=
  let a := st.1
  let b := st.2.1
  let c := st.2.2.1
  let d := st.2.2.2
  let fg : Nat × Nat :=
    if i < 16 then (Nat.lor (Nat.land b c) (Nat.land (not32 b) d), i)
    else if i < 32 then
      (Nat.lor (Nat.land d b) (Nat.land (not32 d) c), (5 * i + 1) % 16)
    else if i < 48 then (Nat.xor b (Nat.xor c d), (3 * i + 5) % 16)
    else (Nat.xor c (Nat.lor b (not32 d)), (7 * i) % 16)
  let f := m32 (fg.1 + a + md5K.getD i 0 + M.getD fg.2 0)
  (d, m32 (b + rotl32 f (md5S.getD i 0)), b, c)

/-- Split a byte list into 32-bit little-endian words. -/
def bytesToWordsLE : List Nat → List Nat
  | b0 :: b1 :: b2 :: b3 :: rest =>
      (b0 + 256 * b1 + 65536 * b2 + 16777216 * b3) :: bytesToWordsLE rest
  | _ => []

/-- Split into `n` blocks of 64 bytes (structural recursion on the count,
so that the kernel can evaluate digests). -/
def md5BlocksAux : Nat → List Nat → List (List Nat)
  | 0, _ => []
  | n + 1, bs => bs.take 64 :: md5BlocksAux n (bs.drop 64)

/-- Split a padded message (length a multiple of 64) into 64-byte blocks. -/
def md5Blocks (bs : List Nat) : List (List Nat) :=
  md5BlocksAux (bs.length / 64) bs

/-- MD5 padding: `0x80`, zeros to 56 mod 64, then the bit length as 8
little-endian bytes. -/
def md5Pad (msg : List Nat) : List Nat :=
  let len := msg.length
  let zeros := (64 + 56 - (len + 1) % 64) % 64
  msg ++ [128] ++ List.replicate zeros 0 ++ leBytes 8 (len * 8 % 18446744073709551616)

/-- Process one 64-byte block into the running MD5 state. -/
def md5Block (st : Nat × Nat × Nat × Nat) (block : List Nat) :
    Nat × Nat × Nat × Nat :=
  let M := bytesToWordsLE block
  let r := (List.range 64).foldl (md5Round M) st
  (m32 (st.1 + r.1), m32 (st.2.1 + r.2.1),
   m32 (st.2.2.1 + r.2.2.1), m32 (st.2.2.2 + r.2.2.2))

/-- MD5 digest of a byte list, as 16 bytes. -/
def md5Bytes (msg : List Nat) : List Nat :=
  let st := (md5Blocks (md5Pad msg)).foldl md5Block
    (1732584193, 4023233417, 2562383102, 271733878)
  leBytes 4 st.1 ++ leBytes 4 st.2.1 ++ leBytes 4 st.2.2.1 ++ leBytes 4 st.2.2.2

/-- `hashlib.md5(s.encode()).hexdigest()`. -/
def md5Hex (s : String) : String :=
  bytesToHex (md5Bytes (utf8Bytes s))

/-- Big-endian byte rendering of a number, `n` bytes. -/
def beBytes (n : Nat) (x : Nat) : List Nat :=
  (leBytes n x).reverse

/-- 32-bit right rotation. -/
def rotr32 (x c : Nat) : Nat :=
  m32 (Nat.lor (Nat.shiftRight x c) (m32 (Nat.shiftLeft x (32 - c))))

/-- SHA-256 round constants. -/
def sha256K : List Nat :=
  [1116352408, 1899447441, 3049323471, 3921009573,
   961987163, 1508970993, 2453635748, 2870763221,
   3624381080, 310598401, 607225278, 1426881987,
   1925078388, 2162078206, 2614888103, 3248222580,
   3835390401, 4022224774, 264347078, 604807628,
   770255983, 1249150122, 1555081692, 1996064986,
   2554220882, 2821834349, 2952996808, 3210313671,
   3336571891, 3584528711, 113926993, 338241895,
   666307205, 773529912, 1294757372, 1396182291,
   1695183700, 1986661051, 2177026350, 2456956037,
   2730485921, 2820302411, 3259730800, 3345764771,
   3516065817, 3600352804, 4094571909, 275423344,
   430227734, 506948616, 659060556, 883997877,
   958139571, 1322822218, 1537002063, 1747873779,
   1955562222, 2024104815, 2227730452, 2361852424,
   2428436474, 2756734187, 3204031479, 3329325298]

/-- Split a byte list into 32-bit big-endian words. -/
def bytesToWordsBE : List Nat → List Nat
  | b0 :: b1 :: b2 :: b3 :: rest =>
      (16777216 * b0 + 65536 * b1 + 256 * b2 + b3) :: bytesToWordsBE rest
  | _ => []

/-- SHA-256 message-schedule extension of 16 words to 64. -/
def sha256Extend (w : List Nat) : List Nat :=
  (List.range 48).foldl (fun w i =>
    let w15 := w.getD (i + 1) 0
    let w2 := w.getD (i + 14) 0
    let s0 := Nat.xor (rotr32 w15 7) (Nat.xor (rotr32 w15 18) (Nat.shiftRight w15 3))
    let s1 := Nat.xor (rotr32 w2 17) (Nat.xor (rotr32 w2 19) (Nat.shiftRight w2 10))
    w ++ [m32 (w.getD i 0 + s0 + w.getD (i + 9) 0 + s1)]) w

/-- SHA-256 working state. -/
structure Sha256St where
  a : Nat
  b : Nat
  c : Nat
  d : Nat
  e : Nat
  f : Nat
  g : Nat
  h : Nat

/-- One SHA-256 compression round. -/
def sha256Round (w : List Nat) (st : Sha256St) (i : Nat) : Sha256St :=
  let s1 := Nat.xor (rotr32 st.e 6) (Nat.xor (rotr32 st.e 11) (rotr32 st.e 25))
  let ch := Nat.xor (Nat.land st.e st.f) (Nat.land (not32 st.e) st.g)
  let t1 := m32 (st.h + s1 + ch + sha256K.getD i 0 + w.getD i 0)
  let s0 := Nat.xor (rotr32 st.a 2) (Nat.xor (rotr32 st.a 13) (rotr32 st.a 22))
  let mj := Nat.xor (Nat.land st.a st.b)
    (Nat.xor (Nat.land st.a st.c) (Nat.land st.b st.c))
  let t2 := m32 (s0 + mj)
  { a := m32 (t1 + t2), b := st.a, c := st.b, d := st.c,
    e := m32 (st.d + t1), f := st.e, g := st.f, h := st.g }

/-- Process one 64-byte block into the running SHA-256 state. -/
def sha256Block (hs : Sha256St) (block : List Nat) : Sha256St :=
  let w := sha256Extend (bytesToWordsBE block)
  let r := (List.range 64).foldl (sha256Round w) hs
  { a := m32 (hs.a + r.a), b := m32 (hs.b + r.b), c := m32 (hs.c + r.c),
    d := m32 (hs.d + r.d), e := m32 (hs.e + r.e), f := m32 (hs.f + r.f),
    g := m32 (hs.g + r.g), h := m32 (hs.h + r.h) }

/-- SHA-256 padding: `0x80`, zeros to 56 mod 64, bit length big-endian. -/
def sha256Pad (msg : List Nat) : List Nat :=
  let len := msg.length
  let zeros := (64 + 56 - (len + 1) % 64) % 64
  msg ++ [128] ++ List.replicate zeros 0 ++ beBytes 8 (len * 8 % 18446744073709551616)

/-- SHA-256 digest of a byte list, as 32 bytes. -/
def sha256Bytes (msg : List Nat) : List Nat :=
  let init : Sha256St :=
    { a := 1779033703, b := 3144134277, c := 1013904242, d := 2773480762,
      e := 1359893119, f := 2600822924, g := 528734635, h := 1541459225 }
  let st := (md5Blocks (sha256Pad msg)).foldl sha256Block init
  beBytes 4 st.a ++ beBytes 4 st.b ++ beBytes 4 st.c ++ beBytes 4 st.d ++
    beBytes 4 st.e ++ beBytes 4 st.f ++ beBytes 4 st.g ++ beBytes 4 st.h

/-- `hashlib.sha256(s.encode()).hexdigest()`. -/
def sha256Hex (s : String) : String :=
  bytesToHex (sha256Bytes (utf8Bytes s))

/-- Python `repr` escaping of a string body (single-quoted form). -/
def pyEscapeStr (s : String) : String :=
  String.mk (s.data.flatMap (fun c =>
    if c = '\\' then ['\\', '\\']
    else if c = '\'' then ['\\', '\'']
    else if c = '\n' then ['\\', 'n']
    else if c = '\r' then ['\\', 'r']
    else if c = '\t' then ['\\', 't']
    else [c]))

/- Python `repr` of a value (dict braces written via code points). -/
mutual

def pyRepr : PVal → String
  | .vstr s => "'" ++ pyEscapeStr s ++ "'"
  | .vint n => toString n
  | .vbool b => if b then "True" else "False"
  | .vnull => "None"
  | .vfloat q => toString q
  | .vdt iso => "datetime(" ++ iso ++ ")"
  | .varr l => "[" ++ pyReprArr l ++ "]"
  | .vobj o => "\x7b" ++ pyReprObj o ++ "\x7d"

def pyReprArr : PArr → String
  | .anil => ""
  | .acons v .anil => pyRepr v
  | .acons v tl => pyRepr v ++ ", " ++ pyReprArr tl

def pyReprObj : PObj → String
  | .onil => ""
  | .ocons k v .onil => "'" ++ pyEscapeStr k ++ "': " ++ pyRepr v
  | .ocons k v tl => "'" ++ pyEscapeStr k ++ "': " ++ pyRepr v ++ ", " ++ pyReprObj tl

end

/-- Python `<` on strings: lexicographic on code points. -/
def pyCharsLt : List Char → List Char → Bool
  | [], [] => false
  | [], _ :: _ => true
  | _ :: _, [] => false
  | c :: cs, d :: ds =>
      if c.toNat < d.toNat then true
      else if d.toNat < c.toNat then false
      else pyCharsLt cs ds

/-- Python string comparison used by `sorted`. -/
def pyStrLt (a b : String) : Bool :=
  pyCharsLt a.data b.data

/-- Insert an entry into a key-sorted association list (Python tuple order
on `(key, value)` pairs: distinct dict keys, so the key decides). -/
def insertItem (k : String) (v : PVal) : PObj → PObj
  | .onil => .ocons k v .onil
  | .ocons k2 v2 tl =>
      if pyStrLt k k2 then .ocons k v (.ocons k2 v2 tl)
      else .ocons k2 v2 (insertItem k v tl)

/-- `sorted(d.items())`: insertion sort of the entries by key. -/
def sortItems : PObj → PObj
  | .onil => .onil
  | .ocons k v tl => insertItem k v (sortItems tl)

/-- Python `repr` of a list of `(key, value)` tuples. -/
def pyReprTuples : PObj → String
  | .onil => ""
  | .ocons k v .onil => "('" ++ pyEscapeStr k ++ "', " ++ pyRepr v ++ ")"
  | .ocons k v tl =>
      "('" ++ pyEscapeStr k ++ "', " ++ pyRepr v ++ "), " ++ pyReprTuples tl

/-- `str(sorted(d.items()))`. -/
def pyStrSortedItems (o : PObj) : String :=
  "[" ++ pyReprTuples (sortItems o) ++ "]"

/-- JSON string escaping (`json.dumps` on the ASCII value domain). -/
def jsonEscape (s : String) : String :=
  String.mk (s.data.flatMap (fun c =>
    if c = '\\' then ['\\', '\\']
    else if c = '"' then ['\\', '"']
    else if c = '\n' then ['\\', 'n']
    else if c = '\r' then ['\\', 'r']
    else if c = '\t' then ['\\', 't']
    else [c]))

/- Recursively sort every object of a value by key (the effect of
`json.dumps(..., sort_keys=True)` on key order). -/
mutual

def sortKeysDeep : PVal → PVal
  | .vobj o => .vobj (sortItems (sortKeysDeepObj o))
  | .varr l => .varr (sortKeysDeepArr l)
  | .vstr s => .vstr s
  | .vint n => .vint n
  | .vbool b => .vbool b
  | .vnull => .vnull
  | .vfloat q => .vfloat q
  | .vdt iso => .vdt iso

def sortKeysDeepArr : PArr → PArr
  | .anil => .anil
  | .acons v tl => .acons (sortKeysDeep v) (sortKeysDeepArr tl)

def sortKeysDeepObj : PObj → PObj
  | .onil => .onil
  | .ocons k v tl => .ocons k (sortKeysDeep v) (sortKeysDeepObj tl)

end

/- Emit JSON text with separators `(",", ":")`, in entry order. -/
mutual

def jsonEmit : PVal → String
  | .vstr s => "\"" ++ jsonEscape s ++ "\""
  | .vint n => toString n
  | .vbool b => if b then "true" else "false"
  | .vnull => "null"
  | .vfloat q => toString q
  | .vdt iso => "\"" ++ jsonEscape iso ++ "\""
  | .varr l => "[" ++ jsonEmitArr l ++ "]"
  | .vobj o => "\x7b" ++ jsonEmitObj o ++ "\x7d"

def jsonEmitArr : PArr → String
  | .anil => ""
  | .acons v .anil => jsonEmit v
  | .acons v tl => jsonEmit v ++ "," ++ jsonEmitArr tl

def jsonEmitObj : PObj → String
  | .onil => ""
  | .ocons k v .onil => "\"" ++ jsonEscape k ++ "\":" ++ jsonEmit v
  | .ocons k v tl =>
      "\"" ++ jsonEscape k ++ "\":" ++ jsonEmit v ++ "," ++ jsonEmitObj tl

end

/-- `json.dumps(value, sort_keys=True, separators=(",", ":"))`. -/
def jsonDumps (v : PVal) : String :=
  jsonEmit (sortKeysDeep v)

/-- The framework fields ignored by the content hashes
(`work_item.py` and `writer.py`: `{"_ai_metadata", "_mongoclaw_version"}`). -/
def isFrameworkKey (k : String) : Bool :=
  k == "_ai_metadata" || k == "_mongoclaw_version"

/- `work_item._make_serializable`: conversion of BSON types to
JSON-serializable ones (on this value domain only datetimes convert,
to their ISO rendering; dicts and lists recurse). -/
mutual

def makeSerializable : PVal → PVal
  | .vdt iso => .vstr iso
  | .vobj o => .vobj (makeSerializableObj o)
  | .varr l => .varr (makeSerializableArr l)
  | .vstr s => .vstr s
  | .vint n => .vint n
  | .vbool b => .vbool b
  | .vnull => .vnull
  | .vfloat q => .vfloat q

def makeSerializableArr : PArr → PArr
  | .anil => .anil
  | .acons v tl => .acons (makeSerializable v) (makeSerializableArr tl)

def makeSerializableObj : PObj → PObj
  | .onil => .onil
  | .ocons k v tl => .ocons k (makeSerializable v) (makeSerializableObj tl)

end

/- `work_item._normalize_for_hash` / `_normalize_value`: drop the
framework fields of every object, recursively. -/
mutual

def wiNormalizeForHash : PObj → PObj
  | .onil => .onil
  | .ocons k v tl =>
      if isFrameworkKey k then wiNormalizeForHash tl
      else .ocons k (wiNormalizeValue v) (wiNormalizeForHash tl)

def wiNormalizeValue : PVal → PVal
  | .vobj o => .vobj (wiNormalizeForHash o)
  | .varr l => .varr (wiNormalizeArr l)
  | .vstr s => .vstr s
  | .vint n => .vint n
  | .vbool b => .vbool b
  | .vnull => .vnull
  | .vfloat q => .vfloat q
  | .vdt iso => .vdt iso

def wiNormalizeArr : PArr → PArr
  | .anil => .anil
  | .acons v tl => .acons (wiNormalizeValue v) (wiNormalizeArr tl)

end

/-- `work_item._extract_source_document_hash`: `None` unless the full
document is a dict; otherwise the SHA-256 hex digest of the sorted-key
JSON rendering of the normalized document. -/
def extractSourceDocumentHash : Option PVal → Option String
  | some (.vobj o) =>
      some (sha256Hex (jsonDumps (.vobj (wiNormalizeForHash (makeSerializableObj o)))))
  | _ => none

/-- `work_item._extract_source_version`: the observed `_mongoclaw_version`
with absent or `None` treated as `0`; non-coercible values give `None`. -/
def extractSourceVersion : Option PVal → Option Int
  | some (.vobj o) =>
      match objGet o "_mongoclaw_version" with
      | none => some 0
      | some .vnull => some 0
      | some (.vint n) => some n
      | some (.vbool b) => some (if b then 1 else 0)
      | some (.vstr s) => s.toInt?
      | some (.vfloat q) => some (if q < 0 then -((-q).floor) else q.floor)
      | some _ => none
  | _ => none

/- `ResultWriter._normalize_for_hash`: drop framework fields of every
object, render datetimes as ISO strings, keep JSON scalars. -/
mutual

def rwNormalizeForHash : PVal → PVal
  | .vobj o => .vobj (rwNormalizeObj o)
  | .varr l => .varr (rwNormalizeArr l)
  | .vdt iso => .vstr iso
  | .vstr s => .vstr s
  | .vint n => .vint n
  | .vfloat q => .vfloat q
  | .vbool b => .vbool b
  | .vnull => .vnull

def rwNormalizeArr : PArr → PArr
  | .anil => .anil
  | .acons v tl => .acons (rwNormalizeForHash v) (rwNormalizeArr tl)

def rwNormalizeObj : PObj → PObj
  | .onil => .onil
  | .ocons k v tl =>
      if isFrameworkKey k then rwNormalizeObj tl
      else .ocons k (rwNormalizeForHash v) (rwNormalizeObj tl)

end

/-- `ResultWriter._stable_document_hash`. -/
def stableDocumentHash (document : PObj) : String :=
  sha256Hex (jsonDumps (rwNormalizeForHash (.vobj document)))

/- Erasure of the framework fields `_ai_metadata` and `_mongoclaw_version`
at every object level (datetimes taken by their ISO rendering).  Two
documents "differ only in framework fields" exactly when their erasures are
equal; this comparator is stated independently of the two normalizers it is
compared against. -/
mutual

def eraseFramework : PVal → PVal
  | .vobj o => .vobj (eraseFrameworkObj o)
  | .varr l => .varr (eraseFrameworkArr l)
  | .vdt iso => .vstr iso
  | .vstr s => .vstr s
  | .vint n => .vint n
  | .vbool b => .vbool b
  | .vnull => .vnull
  | .vfloat q => .vfloat q

def eraseFrameworkArr : PArr → PArr
  | .anil => .anil
  | .acons v tl => .acons (eraseFramework v) (eraseFrameworkArr tl)

def eraseFrameworkObj : PObj → PObj
  | .onil => .onil
  | .ocons k v tl =>
      if isFrameworkKey k then eraseFrameworkObj tl
      else .ocons k (eraseFramework v) (eraseFrameworkObj tl)

end

/-- Python string slice `s[:n]` (over code points). -/
def pyTake (s : String) (n : Nat) : String :=
  String.mk (s.data.take n)

/-- Work item (`dispatcher/work_item.py`), restricted to the fields the
worker, writer and dispatcher read. -/
structure WorkItemR where
  id : String
  agentId : String
  document : PObj
  documentId : String
  sourceVersion : Option Int
  sourceDocumentHash : Option String
  attempt : Nat
  maxAttempts : Nat
  priority : Nat
  idempotencyKey : Option String

/-- `WorkItem.increment_attempt`. -/
def incrementAttempt (w : WorkItemR) : WorkItemR :=
  { w with attempt := w.attempt + 1 }

/-- `WorkItem.should_retry`: `attempt < max_attempts`. -/
def shouldRetry (w : WorkItemR) : Bool :=
  w.attempt < w.maxAttempts

/-- `WorkItem.generate_idempotency_key`:
`agent_id:document_id:md5(str(sorted(document.items())))[:8]`. -/
def generateIdempotencyKey (w : WorkItemR) : String :=
  let docHash := pyTake (md5Hex (pyStrSortedItems w.document)) 8
  w.agentId ++ ":" ++ w.documentId ++ ":" ++ docHash

/-- `AgentDispatcher._generate_idempotency_key`: the agent template branch
falls through (a TODO in the source), so the content key is always used. -/
def dispatcherGenerateIdempotencyKey (_idempotencyKeyTemplate : Option String)
    (w : WorkItemR) : String :=
  generateIdempotencyKey w

/-- Effects of the worker on the queue while handling one item. -/
inductive QueueAction where
  | ack
  | enqueueRetry (item : WorkItemR)
  | moveToDlq (item : WorkItemR)

/-- `AgentWorker._handle_failure`: re-enqueue with incremented attempt when
`should_retry`, else move to the DLQ; always ack the original message. -/
def handleFailureActions (w : WorkItemR) : List QueueAction :=
  (if shouldRetry w then [QueueAction.enqueueRetry (incrementAttempt w)]
   else [QueueAction.moveToDlq w]) ++ [QueueAction.ack]

/-- Result of processing a work item (`WorkItemResult`). -/
structure WorkItemResultR where
  success : Bool
  written : Bool
  lifecycleState : String
  reason : String
  attempt : Nat

/-- `WorkItemResult.success_result`. -/
def successResult (w : WorkItemR) (written : Bool)
    (lifecycleState reason : String) : WorkItemResultR :=
  { success := true, written := written, lifecycleState := lifecycleState,
    reason := reason, attempt := w.attempt }

/-- `WorkItemResult.failure_result`. -/
def failureResult (w : WorkItemR) (lifecycleState reason : String) :
    WorkItemResultR :=
  { success := false, written := false, lifecycleState := lifecycleState,
    reason := reason, attempt := w.attempt }

/-- `AgentWorker._process_item` on a returned executor result: ack when the
result is a success, otherwise run `_handle_failure`. -/
def processItemActions (w : WorkItemR) (res : WorkItemResultR) :
    List QueueAction :=
  if res.success then [QueueAction.ack] else handleFailureActions w

/-- Write strategies (`core/types.py::WriteStrategy`). -/
inductive WriteStrategyT where
  | merge
  | replace
  | append
  | nested
deriving DecidableEq, BEq

/-- Write configuration (`agents/models.py::WriteConfig`). -/
structure WriteConfigR where
  strategy : WriteStrategyT
  targetCollection : Option String
  targetDatabase : Option String
  fields : Option (List (String × String))
  targetField : Option String
  path : Option String
  arrayField : Option String
  idempotencyKeyTemplate : Option String
  includeMetadata : Bool
  metadataField : String

/-- Execution configuration (`agents/models.py::ExecutionConfig`). -/
structure ExecutionConfigR where
  maxRetries : Int
  retryDelaySeconds : Rat
  retryMaxDelaySeconds : Rat
  timeoutSeconds : Rat
  rateLimitRequests : Option Int
  costLimitUsd : Option Rat
  tokenLimit : Option Int
  priority : Int
  deduplicate : Bool
  deduplicateWindowSeconds : Int
  consistencyMode : String
  maxConcurrency : Option Int
  requireDocumentHashMatch : Bool

/-- `WriteConfig.validate_strategy_fields` (pydantic `model_validator`):
`array_field` required for APPEND, `path` required for NESTED (Python
truthiness, so `None` and `""` both fail). -/
def validateStrategyFields (wc : WriteConfigR) : Except String WriteConfigR :=
  if wc.strategy == WriteStrategyT.append && !truthyOptStr wc.arrayField then
    Except.error "array_field is required for APPEND strategy"
  else if wc.strategy == WriteStrategyT.nested && !truthyOptStr wc.path then
    Except.error "path is required for NESTED strategy"
  else Except.ok wc

/-- `WriteConfig` model validation: there are no field-level numeric
constraints, only the strategy validator. -/
def mkWriteConfig (wc : WriteConfigR) : Except String WriteConfigR :=
  validateStrategyFields wc

/-- `ExecutionConfig` model validation: the pydantic field constraints
(`ge`/`gt`/`le`) plus the `consistency_mode` field validator.  The source
declares no relation between `retry_delay_seconds` and
`retry_max_delay_seconds`. -/
def mkExecutionConfig (c : ExecutionConfigR) : Except String ExecutionConfigR :=
  if !(0 ≤ c.maxRetries) then Except.error "max_retries must be >= 0"
  else if !(0 < c.retryDelaySeconds) then
    Except.error "retry_delay_seconds must be > 0"
  else if !(0 < c.retryMaxDelaySeconds) then
    Except.error "retry_max_delay_seconds must be > 0"
  else if !(0 < c.timeoutSeconds) then Except.error "timeout_seconds must be > 0"
  else if !(0 ≤ c.priority ∧ c.priority ≤ 10) then
    Except.error "priority must be between 0 and 10"
  else if !(0 ≤ c.deduplicateWindowSeconds) then
    Except.error "deduplicate_window_seconds must be >= 0"
  else if !(match c.maxConcurrency with
            | none => true
            | some m => 1 ≤ m) then
    Except.error "max_concurrency must be >= 1"
  else if !(c.consistencyMode == "eventual" ||
            c.consistencyMode == "strict_post_commit" ||
            c.consistencyMode == "shadow") then
    Except.error "consistency_mode must be one of: eventual, shadow, strict_post_commit"
  else Except.ok c

/-- AI response (`core/types.py::AIResponse`), parsed-content restricted to
dict values (the shape every modelled pipeline produces). -/
structure AIResponseR where
  content : String
  parsedContent : Option PObj
  model : String
  provider : String
  totalTokens : Int
  costUsd : Rat
  latencyMs : Rat

/-- Watch spec fields of an agent used by the writer. -/
structure AgentWatchR where
  database : String
  collection : String

/-- Agent configuration view used by the executor and writer. -/
structure AgentR where
  id : String
  watch : AgentWatchR
  write : WriteConfigR
  execution : ExecutionConfigR

/-- Singleton object. -/
def singleObj (k : String) (v : PVal) : PObj :=
  PObj.ocons k v PObj.onil

/-- `{path}.{key}` key prefixing of the nested strategy. -/
def prefixKeysWithPath (path : String) : PObj → PObj
  | .onil => .onil
  | .ocons k v tl => .ocons (path ++ "." ++ k) v (prefixKeysWithPath path tl)

/-- `WriteStrategyHandler.build_update` (`result/strategies.py`): the update
document per strategy; the APPEND/NESTED `ValueError`s become `error`. -/
def strategyBuildUpdate (strategy : WriteStrategyT) (content : PObj)
    (path arrayField : Option String) : Except String PObj :=
  match strategy with
  | .merge => Except.ok (singleObj "$set" (.vobj content))
  | .replace => Except.ok (singleObj "$set" (.vobj content))
  | .append =>
      if !truthyOptStr arrayField then
        Except.error "array_field is required for APPEND strategy"
      else
        Except.ok (singleObj "$push" (.vobj (singleObj (arrayField.getD "")
          (.vobj (singleObj "$each" (.varr (.acons (.vobj content) .anil)))))))
  | .nested =>
      if !truthyOptStr path then
        Except.error "path is required for NESTED strategy"
      else
        Except.ok (singleObj "$set" (.vobj (prefixKeysWithPath (path.getD "") content)))

/-- Python truthiness of an optional list (`None` and `[]`/`{}` falsy). -/
def truthyOptList {α : Type} : Option (List α) → Bool
  | none => false
  | some [] => false
  | some (_ :: _) => true

/-- The field-map loop of `ResultWriter._build_update`: for each
`source_field → target_field`, copy the value when the source field is in
the parsed content. -/
def mapFields (parsed : PObj) : List (String × String) → PObj → PObj
  | [], acc => acc
  | (src, tgt) :: rest, acc =>
      match objGet parsed src with
      | some v => mapFields parsed rest (objSet acc tgt v)
      | none => mapFields parsed rest acc

/-- The content-shaping steps of `ResultWriter._build_update`: apply the
field map when configured (Python truthiness), then optionally nest the
output under `target_field`. -/
def buildUpdateContent (wc : WriteConfigR) (parsedContent : PObj) : PObj :=
  let content :=
    if truthyOptList wc.fields then mapFields parsedContent (wc.fields.getD []) .onil
    else parsedContent
  if truthyOptStr wc.targetField then
    singleObj (wc.targetField.getD "") (.vobj content)
  else content

/-- The metadata step of `ResultWriter._build_update`: attach the execution
metadata under `metadata_field` inside `$set` when `include_metadata`. -/
def attachMetadata (wc : WriteConfigR) (ai : AIResponseR) (workItemId : String)
    (agentId : Option String) (nowIso : String) (upd : PObj) : PObj :=
  if wc.includeMetadata then
    let metadata : PVal := .vobj (.ocons "processed_at" (.vdt nowIso)
      (.ocons "work_item_id" (.vstr workItemId)
      (.ocons "source_work_item_id" (.vstr workItemId)
      (.ocons "source_agent_id"
        (match agentId with
         | some a => .vstr a
         | none => .vnull)
      (.ocons "model" (.vstr ai.model)
      (.ocons "provider" (.vstr ai.provider)
      (.ocons "tokens" (.vint ai.totalTokens)
      (.ocons "cost_usd" (.vfloat ai.costUsd)
      (.ocons "latency_ms" (.vfloat ai.latencyMs) .onil)))))))))
    match objGet upd "$set" with
    | some (.vobj s) => objSet upd "$set" (.vobj (objSet s wc.metadataField metadata))
    | some _ => upd
    | none => objSet upd "$set" (.vobj (singleObj wc.metadataField metadata))
  else upd

/-- The strict-mode step of `ResultWriter._build_update`:
`update.setdefault("$inc", {})["_mongoclaw_version"] = 1`. -/
def attachVersionInc (incrementVersion : Bool) (upd : PObj) : PObj :=
  if incrementVersion then
    let incObj :=
      match objGet upd "$inc" with
      | some (.vobj i) => i
      | _ => PObj.onil
    objSet upd "$inc" (.vobj (objSet incObj "_mongoclaw_version" (.vint 1)))
  else upd

/-- `ResultWriter._build_update`: shape the content, build the strategy
update, attach metadata, and add the version increment when
`increment_version`. -/
def buildUpdate (wc : WriteConfigR) (parsedContent : PObj) (ai : AIResponseR)
    (workItemId : String) (agentId : Option String) (incrementVersion : Bool)
    (nowIso : String) : Except String PObj :=
  match strategyBuildUpdate wc.strategy (buildUpdateContent wc parsedContent)
      wc.path wc.arrayField with
  | .error e => Except.error e
  | .ok upd =>
      Except.ok (attachVersionInc incrementVersion
        (attachMetadata wc ai workItemId agentId nowIso upd))

/-- Version predicate of the strict update filter
(`ResultWriter._build_update_filter`). -/
inductive VersionGuard where
  | noGuard
  | zeroOrAbsent
  | eqVersion (v : Int)

/-- The update filter: `_id` plus an optional version guard. -/
structure UpdateFilterR where
  id : String
  guard : VersionGuard

/-- `ResultWriter._parse_document_id`: the 24-hex ObjectId form and the
plain string form are collapsed to the canonical string. -/
def parseDocumentId (s : String) : String := s

/-- `ResultWriter._build_update_filter`: base `_id` filter; under strict
mode require `_mongoclaw_version == expected`, where `expected` is the
source version with `None` treated as `0`, and `0` also matches an absent
field (the `$or` with `$exists: false`). -/
def buildUpdateFilter (documentId : String) (sourceVersion : Option Int)
    (enforceStrictVersion : Bool) : UpdateFilterR :=
  if !enforceStrictVersion then
    { id := parseDocumentId documentId, guard := VersionGuard.noGuard }
  else
    let expected := sourceVersion.getD 0
    if expected == 0 then
      { id := parseDocumentId documentId, guard := VersionGuard.zeroOrAbsent }
    else
      { id := parseDocumentId documentId, guard := VersionGuard.eqVersion expected }

/-- MongoDB semantics of the version guard against a stored document
(numeric equality across int/float, absent only matched by the
`$exists: false` disjunct). -/
def versionGuardMatches (g : VersionGuard) (doc : PObj) : Bool :=
  match g with
  | .noGuard => true
  | .zeroOrAbsent =>
      match objGet doc "_mongoclaw_version" with
      | some (.vint n) => n == 0
      | some (.vfloat q) => q == 0
      | none => true
      | _ => false
  | .eqVersion v =>
      match objGet doc "_mongoclaw_version" with
      | some (.vint n) => n == v
      | some (.vfloat q) => q == (v : Rat)
      | _ => false

/-- Whether a stored document (id, body) matches the update filter. -/
def filterMatchesDoc (f : UpdateFilterR) (docId : String) (doc : PObj) : Bool :=
  docId == f.id && versionGuardMatches f.guard doc

/-- `ResultWriter._matches_source_hash`: re-read the target by `_id` and
compare its stable hash with the dispatch-time hash. -/
def matchesSourceHash (targetDocs : List (String × PObj)) (documentId : String)
    (expected : String) : Bool :=
  match targetDocs.find? (fun p => p.1 == parseDocumentId documentId) with
  | none => false
  | some p => stableDocumentHash p.2 == expected

/-- Outcome of `ResultWriter.write`: a `(was_written, reason)` pair, or a
raised exception. -/
inductive WriteOutcome where
  | result (written : Bool) (reason : String)
  | werror (e : String)

/-- Python truthiness of a value. -/
def pyTruthy : PVal → Bool
  | .vstr s => !(s == "")
  | .vint n => !(n == 0)
  | .vbool b => b
  | .vnull => false
  | .vfloat q => !(q == 0)
  | .vdt _ => true
  | .varr .anil => false
  | .varr (.acons _ _) => true
  | .vobj .onil => false
  | .vobj (.ocons _ _ _) => true

/-- The `parsed_content or {"content": content}` default of
`ResultWriter.write`. -/
def writerParsedContent (ai : AIResponseR) : PObj :=
  if truthyOptObj ai.parsedContent then ai.parsedContent.getD .onil
  else singleObj "content" (.vstr ai.content)

/-- `ResultWriter.write` over an explicit store state: `recordedKeys` is
the idempotency collection, `targetDocs` the target collection (id with
document body).  Returns the `(was_written, reason)` outcome; exceptions
raised while building the update surface as `werror`. -/
def writerWrite (agent : AgentR) (documentId : String) (ai : AIResponseR)
    (workItemId : String) (idempotencyKey : Option String)
    (sourceVersion : Option Int) (enforceStrictVersion : Bool)
    (sourceDocumentHash : Option String) (enforceDocumentHash : Bool)
    (recordedKeys : List String) (targetDocs : List (String × PObj))
    (nowIso : String) : WriteOutcome :=
  if truthyOptStr idempotencyKey &&
     recordedKeys.contains (idempotencyKey.getD "") then
    WriteOutcome.result false "idempotency_duplicate"
  else
    match buildUpdate agent.write (writerParsedContent ai) ai workItemId
        (some agent.id) enforceStrictVersion nowIso with
    | .error e => WriteOutcome.werror e
    | .ok _upd =>
      let filt := buildUpdateFilter documentId sourceVersion enforceStrictVersion
      if enforceDocumentHash && truthyOptStr sourceDocumentHash &&
         !matchesSourceHash targetDocs documentId (sourceDocumentHash.getD "") then
        WriteOutcome.result false "hash_conflict"
      else if !(targetDocs.any (fun p => filterMatchesDoc filt p.1 p.2)) then
        if enforceStrictVersion then
          WriteOutcome.result false "strict_version_conflict"
        else
          WriteOutcome.result false "document_not_found"
      else WriteOutcome.result true "written"

/-- The consistency dispatch and exception handling of
`Executor._write_result`: shadow mode skips the writer entirely; any
writer exception is converted to `(False, "write_error")`. -/
def executorWriteResultO (consistencyMode : String)
    (writerOutcome : WriteOutcome) : Bool × String :=
  if consistencyMode == "shadow" then (false, "shadow_mode")
  else
    match writerOutcome with
    | .result w r => (w, r)
    | .werror _ => (false, "write_error")

/-- `Executor._write_result` with the store state passed explicitly. -/
def executorWriteResult (agent : AgentR) (item : WorkItemR) (ai : AIResponseR)
    (recordedKeys : List String) (targetDocs : List (String × PObj))
    (nowIso : String) : Bool × String :=
  executorWriteResultO agent.execution.consistencyMode
    (writerWrite agent item.documentId ai item.id item.idempotencyKey
      item.sourceVersion
      (agent.execution.consistencyMode == "strict_post_commit")
      item.sourceDocumentHash
      (agent.execution.consistencyMode == "strict_post_commit" &&
        agent.execution.requireDocumentHashMatch)
      recordedKeys targetDocs nowIso)

/-- Tail of `Executor._execute_pipeline` once the policy admitted the
write: a success result whose `written`/`reason` come from
`_write_result`. -/
def pipelineWriteStage (item : WorkItemR) (writeRes : Bool × String) :
    WorkItemResultR :=
  successResult item writeRes.1
    (if writeRes.1 then "written" else "write_skipped") writeRes.2

/-- Numeric view of a value (Python numeric tower: bools are ints). -/
def pyNum : PVal → Option Rat
  | .vint n => some (n : Rat)
  | .vbool b => some (if b then 1 else 0)
  | .vfloat q => some q
  | _ => none

/- Python `==` on values: numeric cross-type equality, structural equality
on strings/None/lists, key-based equality on dicts. -/
mutual

def pyEq : PVal → PVal → Bool
  | .vstr s, .vstr t => s == t
  | .vnull, .vnull => true
  | .vdt s, .vdt t => s == t
  | .varr l, .varr m => pyEqArr l m
  | .vobj o, .vobj p => objLen o == objLen p && pyEqObjSub o p
  | a, b =>
      match pyNum a, pyNum b with
      | some x, some y => x == y
      | _, _ => false

def pyEqArr : PArr → PArr → Bool
  | .anil, .anil => true
  | .acons v tl, .acons w tl2 => pyEq v w && pyEqArr tl tl2
  | _, _ => false

def pyEqObjSub : PObj → PObj → Bool
  | .onil, _ => true
  | .ocons k v tl, b =>
      (match objGet b k with
       | some w => pyEq v w
       | none => false) && pyEqObjSub tl b

end

/-- Python membership `v in l` (list), via Python `==`. -/
def pyInArr (v : PVal) : PArr → Bool
  | .anil => false
  | .acons w tl => pyEq v w || pyInArr v tl

/-- Python `type(v).__name__`. -/
def pyTypeName : PVal → String
  | .vstr _ => "str"
  | .vint _ => "int"
  | .vbool _ => "bool"
  | .vnull => "NoneType"
  | .vfloat _ => "float"
  | .vdt _ => "datetime"
  | .varr _ => "list"
  | .vobj _ => "dict"

/-- `ResponseParser._check_type`: `isinstance` against the JSON-schema type
map; Python bools are ints, so they pass `integer` and `number`; unknown
type names are trivially true. -/
def checkType (v : PVal) (expected : String) : Bool :=
  if expected == "string" then
    match v with
    | .vstr _ => true
    | _ => false
  else if expected == "number" then
    match v with
    | .vint _ => true
    | .vbool _ => true
    | .vfloat _ => true
    | _ => false
  else if expected == "integer" then
    match v with
    | .vint _ => true
    | .vbool _ => true
    | _ => false
  else if expected == "boolean" then
    match v with
    | .vbool _ => true
    | _ => false
  else if expected == "array" then
    match v with
    | .varr _ => true
    | _ => false
  else if expected == "object" then
    match v with
    | .vobj _ => true
    | _ => false
  else if expected == "null" then
    match v with
    | .vnull => true
    | _ => false
  else true

/-- Python `str(v)` (strings unquoted, containers as `repr`). -/
def pyStrOf : PVal → String
  | .vstr s => s
  | v => pyRepr v

/-- The `required` loop of `ResponseParser._validate_schema`: report the
required fields missing from the data dict. -/
def requiredErrorsArr (d : PObj) : PArr → List String
  | .anil => []
  | .acons (.vstr f) tl =>
      (if (objGet d f).isNone then ["Missing required field: '" ++ f ++ "'"]
       else []) ++ requiredErrorsArr d tl
  | .acons v tl =>
      ("Missing required field: '" ++ pyStrOf v ++ "'") :: requiredErrorsArr d tl

/-- `schema.get("required", [])` then the loop above (non-list values give
no required fields). -/
def requiredErrors (req : Option PVal) (d : PObj) : List String :=
  match req with
  | some (.varr reqs) => requiredErrorsArr d reqs
  | _ => []

/-- A value found by `objGet` is structurally smaller than the dict. -/
def objGetSizeLt : (o : PObj) → (k : String) → (v : PVal) →
    objGet o k = some v → sizeOf v < sizeOf o
  | .ocons k2 v2 tl, k, v, h => by
      by_cases hk : (k2 == k) = true
      · simp only [objGet, hk, if_true, Option.some.injEq] at h
        subst h
        simp only [PObj.ocons.sizeOf_spec]
        omega
      · simp only [objGet, hk, if_false, Bool.false_eq_true] at h
        have := objGetSizeLt tl k v h
        simp only [PObj.ocons.sizeOf_spec]
        omega

/-- The type-check step of `ResponseParser._validate_schema` (with its
early return on mismatch); a falsy or non-string `type` entry skips it. -/
def typeErrors (data : PVal) (schema : PObj) : List String :=
  match objGet schema "type" with
  | some (.vstr t) =>
      if !(t == "") && !checkType data t then
        ["Expected type '" ++ t ++ "', got '" ++ pyTypeName data ++ "'"]
      else []
  | _ => []

/-- The enum step of `ResponseParser._validate_schema`: membership of the
data (by Python `==`) in the `enum` list. -/
def enumErrors (data : PVal) (schema : PObj) : List String :=
  match objGet schema "enum" with
  | some (.varr options) =>
      if pyInArr data options then []
      else ["Value must be one of: " ++ pyRepr (.varr options)]
  | _ => []

/- `ResponseParser._validate_schema`: the simplified JSON-schema validator:
type check with early return, then required + properties for objects,
items for arrays, and enum membership. -/
mutual

def validateSchema (data : PVal) (schema : PObj) : List String :=
  let tErrs := typeErrors data schema
  if !tErrs.isEmpty then tErrs
  else objErrors data schema ++ arrErrors data schema ++ enumErrors data schema
termination_by (sizeOf data, 3)
decreasing_by
  all_goals apply Prod.Lex.right
  all_goals omega

def objErrors (data : PVal) (schema : PObj) : List String :=
  match objGet schema "type", data with
  | some (.vstr "object"), .vobj d =>
      requiredErrors (objGet schema "required") d ++
        propErrors d (objGet schema "properties")
  | _, _ => []
termination_by (sizeOf data, 2)
decreasing_by
  all_goals simp_wf
  all_goals apply Prod.Lex.left
  all_goals omega

def propErrors (d : PObj) (props : Option PVal) : List String :=
  match props with
  | some (.vobj propso) => validateProps d propso
  | _ => []
termination_by (sizeOf d, sizeOf props)
decreasing_by
  all_goals simp_wf
  all_goals apply Prod.Lex.right
  all_goals omega

def validateProps (d : PObj) : PObj → List String
  | .onil => []
  | .ocons f fs tl =>
      (match h : objGet d f, fs with
       | some v, .vobj fso =>
           (validateSchema v fso).map (fun e => f ++ "." ++ e)
       | some _, _ => []
       | none, _ => []) ++ validateProps d tl
termination_by props => (sizeOf d, sizeOf props + 1)
decreasing_by
  all_goals simp_wf
  · exact Prod.Lex.left _ _ (by have sz := objGetSizeLt _ _ _ h; omega)
  · apply Prod.Lex.right
    omega

def arrErrors (data : PVal) (schema : PObj) : List String :=
  match objGet schema "type", data with
  | some (.vstr "array"), .varr l => itemErrors l (objGet schema "items")
  | _, _ => []
termination_by (sizeOf data, 2)
decreasing_by
  all_goals simp_wf
  all_goals apply Prod.Lex.left
  all_goals omega

def itemErrors (l : PArr) (items : Option PVal) : List String :=
  match items with
  | some (.vobj its) => validateItems its 0 l
  | _ => []
termination_by (sizeOf l, sizeOf items)
decreasing_by
  all_goals simp_wf
  all_goals apply Prod.Lex.right
  all_goals omega

def validateItems (its : PObj) (i : Nat) : PArr → List String
  | .anil => []
  | .acons v tl =>
      ((validateSchema v its).map (fun e => "[" ++ toString i ++ "]." ++ e)) ++
      validateItems its (i + 1) tl
termination_by l => (sizeOf l, 0)
decreasing_by
  all_goals simp_wf
  all_goals apply Prod.Lex.left
  all_goals omega

end

/-- Python whitespace for `str.strip()`. -/
def isPyWhitespace (c : Char) : Bool :=
  c == ' ' || c == '\t' || c == '\n' || c == '\r' || c == '\x0b' || c == '\x0c'

/-- Python `str.strip()`: drop leading and trailing whitespace. -/
def pyStrip (s : String) : String :=
  String.mk (((s.data.dropWhile isPyWhitespace).reverse.dropWhile
    isPyWhitespace).reverse)

/-- The non-strict fallback dict `{"content": c, "_raw": True}`. -/
def fallbackRawObj (c : String) : PObj :=
  PObj.ocons "content" (.vstr c) (.ocons "_raw" (.vbool true) .onil)

/-- `ResponseParser.parse` (`ai/response_parser.py`): strip, fail on empty
content, extract JSON (the extraction ladder `_extract_json` — `json.loads`,
fenced block, first object/array, lenient repair — is passed as a function
parameter), validate against the schema when one is set (Python truthiness,
so `None` and `{}` skip), and in strict mode raise on extraction or
validation failure.  Raised `AIResponseParseError`s are the `error` case. -/
def rpParse (strict : Bool) (extractJson : String → Option PVal)
    (content : String) (schema : Option PObj) : Except String PVal :=
  let c := pyStrip content
  if c == "" then Except.error "Empty response content"
  else
    match extractJson c with
    | none =>
        if strict then Except.error "Could not extract JSON from response"
        else Except.ok (.vobj (fallbackRawObj c))
    | some parsed =>
        if truthyOptObj schema then
          let errs := validateSchema parsed (schema.getD .onil)
          if !errs.isEmpty then
            if strict then
              Except.error ("Schema validation failed: " ++
                String.intercalate "; " errs)
            else Except.ok parsed
          else Except.ok parsed
        else Except.ok parsed

/-- `Executor._parse_response`: call the parser and catch every exception,
falling back to the raw content dict. -/
def executorParseResponse (strict : Bool) (extractJson : String → Option PVal)
    (schema : Option PObj) (content : String) : PVal :=
  match rpParse strict extractJson content schema with
  | .ok p => p
  | .error _ => .vobj (fallbackRawObj content)

/-- Worker/dispatcher settings used by backpressure admission
(`core/config.py::WorkerSettings`). -/
structure WorkerSettingsR where
  dispatchBackpressureEnabled : Bool
  dispatchBackpressureThreshold : Rat
  dispatchMinPriorityWhenBackpressured : Nat
  dispatchOverflowPolicy : String
  dispatchDeferMaxAttempts : Nat

/-- The defer loop of `_apply_backpressure_admission`: re-sample up to the
given number of attempts (`resample i` is the fullness observed at the
`i`-th re-check); admit early when pressure clears, force-enqueue when the
attempts are exhausted. -/
def deferLoop (threshold : Rat) (resample : Nat → Rat) : Nat → Nat → Bool
  | 0, _ => true
  | n + 1, i =>
      if resample i < threshold then true
      else deferLoop threshold resample n (i + 1)

/-- `AgentDispatcher._apply_backpressure_admission`: `True` means the item
is enqueued.  Disabled backpressure and sub-threshold fullness admit;
priority at or above the configured minimum bypasses the overflow policy;
otherwise `drop` and `dlq` reject and `defer` runs the defer loop. -/
def applyBackpressureAdmission (ws : WorkerSettingsR) (priority : Nat)
    (fullness : Rat) (resample : Nat → Rat) : Bool :=
  if !ws.dispatchBackpressureEnabled then true
  else if fullness < ws.dispatchBackpressureThreshold then true
  else if ws.dispatchMinPriorityWhenBackpressured ≤ priority then true
  else if ws.dispatchOverflowPolicy == "drop" then false
  else if ws.dispatchOverflowPolicy == "dlq" then false
  else deferLoop ws.dispatchBackpressureThreshold resample
    ws.dispatchDeferMaxAttempts 0

/-- Change-stream operations (`core/types.py::ChangeOperation`). -/
inductive ChangeOp where
  | insert
  | update
  | replace
  | delete
deriving DecidableEq, BEq

/-- `EventMatcher._matches_agent` for an agent already selected by watch
target: operation membership, the filter check (only run when both the
filter and the full document are truthy; the filter evaluator
`_matches_filter` is passed as a function parameter), and the rejection of
filter-bearing agents on deletes lacking a full document. -/
def matchesAgent (matchesFilter : PObj → PObj → Bool) (operation : ChangeOp)
    (fullDocument : Option PObj) (watchOperations : List ChangeOp)
    (watchFilter : Option PObj) : Bool :=
  if !watchOperations.contains operation then false
  else if truthyOptObj watchFilter && truthyOptObj fullDocument &&
          !matchesFilter (fullDocument.getD .onil) (watchFilter.getD .onil) then
    false
  else if operation == ChangeOp.delete && !truthyOptObj fullDocument &&
          truthyOptObj watchFilter then
    false
  else true

/-- Point update of a replica-indexed flag map. -/
def updFlag (f : Nat → Bool) (r : Nat) (b : Bool) : Nat → Bool :=
  fun x => if x == r then b else f x

/-- Leader-election configuration (`watcher/leader_election.py`): the lease
duration in abstract clock units. -/
structure LeaderCfg where
  leaseDuration : Nat

/-- Global state of the election: the stored lease document for the lock
name (holder, `expires_at`), each replica's `_is_leader` flag, and the
clock. -/
structure LState where
  lease : Option (Nat × Nat)
  flag : Nat → Bool
  now : Nat

/-- The filter of the `_try_acquire` conditional upsert: no document, or
already ours, or expired (`expires_at < now`). -/
def tryAcquireMatches (s : LState) (r : Nat) : Bool :=
  match s.lease with
  | none => true
  | some (h, e) => h == r || decide (e < s.now)

/-- `LeaderElection._try_acquire`: when the conditional upsert writes, set
the lease to this replica with a fresh expiry and raise its flag; on a
non-matching filter the unique index makes the upsert a no-op
(`DuplicateKeyError` is swallowed). -/
def tryAcquire (cfg : LeaderCfg) (r : Nat) (s : LState) : LState :=
  if tryAcquireMatches s r then
    { lease := some (r, s.now + cfg.leaseDuration),
      flag := updFlag s.flag r true, now := s.now }
  else s

/-- One pass of `LeaderElection._election_loop` for replica `r`: a leader
renews (`_renew` matches on holder only; a failed renew demotes via
`_handle_lost_leadership`), a non-leader tries to acquire. -/
def electionLoopStep (cfg : LeaderCfg) (r : Nat) (s : LState) : LState :=
  if s.flag r then
    match s.lease with
    | some (h, _e) =>
        if h == r then { s with lease := some (h, s.now + cfg.leaseDuration) }
        else { s with flag := updFlag s.flag r false }
    | none => { s with flag := updFlag s.flag r false }
  else tryAcquire cfg r s

/-- `LeaderElection._release`: delete the lease when this replica holds it,
then `_handle_lost_leadership` lowers the flag. -/
def releaseStep (r : Nat) (s : LState) : LState :=
  let s1 :=
    match s.lease with
    | some (h, _) => if h == r then { s with lease := none } else s
    | none => s
  { s1 with flag := updFlag s1.flag r false }

/-- The TTL index sweep: remove an expired lease document. -/
def ttlSweepStep (s : LState) : LState :=
  match s.lease with
  | some (_, e) => if e < s.now then { s with lease := none } else s
  | none => s

/-- Actions of the election system: time passing, one election-loop pass of
a replica, an explicit release, and the TTL sweep. -/
inductive LAction where
  | tick (dt : Nat)
  | loopStep (r : Nat)
  | release (r : Nat)
  | ttlSweep

/-- Step function of the election transition system. -/
def lstep (cfg : LeaderCfg) : LAction → LState → LState
  | .tick dt, s => { s with now := s.now + dt }
  | .loopStep r, s => electionLoopStep cfg r s
  | .release r, s => releaseStep r s
  | .ttlSweep, s => ttlSweepStep s

/-- Run a list of actions from a state. -/
def lrun (cfg : LeaderCfg) (acts : List LAction) (s : LState) : LState :=
  acts.foldl (fun s a => lstep cfg a s) s

/-- Numeric value of a stored document's `_mongoclaw_version` field with an
absent field read as `0` (the version the strict filter is meant to
compare against); non-numeric values have none. -/
def docEffectiveVersion (doc : PObj) : Option Rat :=
  match objGet doc "_mongoclaw_version" with
  | none => some 0
  | some (.vint n) => some ((n : Int) : Rat)
  | some (.vfloat q) => some q
  | _ => none

def c3parsed : PVal := .vobj (singleObj "category" (.vstr "billing"))

def c4doc1 : PObj :=
  .ocons "_mongoclaw_version" (.vint 1) (.ocons "status" (.vstr "new") .onil)

def c8badConfig : ExecutionConfigR :=
  { maxRetries := 3, retryDelaySeconds := 10, retryMaxDelaySeconds := 1,
    timeoutSeconds := 60, rateLimitRequests := none, costLimitUsd := none,
    tokenLimit := none, priority := 0, deduplicate := true,
    deduplicateWindowSeconds := 300, consistencyMode := "eventual",
    maxConcurrency := none, requireDocumentHashMatch := false }

def c2exec : ExecutionConfigR :=
  { maxRetries := 3, retryDelaySeconds := 1, retryMaxDelaySeconds := 60,
    timeoutSeconds := 60, rateLimitRequests := none, costLimitUsd := none,
    tokenLimit := none, priority := 0, deduplicate := true,
    deduplicateWindowSeconds := 300,
    consistencyMode := "strict_post_commit", maxConcurrency := none,
    requireDocumentHashMatch := false }

def c9sA : LState :=
  { lease := some (0, 30), flag := fun x => x == 0, now := 10 }

def c3schema : PObj :=
  .ocons "type" (.vstr "object")
    (.ocons "required" (.varr (.acons (.vstr "priority") .anil)) .onil)

def c4doc2 : PObj :=
  .ocons "_mongoclaw_version" (.vint 2) (.ocons "status" (.vstr "new") .onil)

def c4item1 : WorkItemR :=
  { id := "wi-1", agentId := "classifier", document := c4doc1,
    documentId := "t1", sourceVersion := some 1, sourceDocumentHash := none,
    attempt := 0, maxAttempts := 3, priority := 0, idempotencyKey := none }

def c4item2 : WorkItemR :=
  { c4item1 with document := c4doc2, sourceVersion := some 2 }

def c2agent : AgentR :=
  { id := "ticket-classifier",
    watch := { database := "support", collection := "tickets" },
    write := { strategy := WriteStrategyT.merge, targetCollection := none,
               targetDatabase := none, fields := none, targetField := none,
               path := none, arrayField := none,
               idempotencyKeyTemplate := none, includeMetadata := true,
               metadataField := "_ai_metadata" },
    execution := c2exec }

def c2ai : AIResponseR :=
  { content := "x", parsedContent := some (singleObj "category" (.vstr "billing")),
    model := "m", provider := "p", totalTokens := 10, costUsd := 0,
    latencyMs := 1 }

def c2update : PObj :=
  attachVersionInc true
    (attachMetadata c2agent.write c2ai "wi-1" (some c2agent.id)
      "2026-01-01T00:00:00"
      (singleObj "$set"
        (.vobj (buildUpdateContent c2agent.write (writerParsedContent c2ai)))))

def c2docs : List (String × PObj) :=
  [("t1", .ocons "_mongoclaw_version" (.vint 4)
    (.ocons "title" (.vstr "Card declined") .onil))]

def c2storedDoc : PObj :=
  .ocons "_mongoclaw_version" (.vint 3) .onil

def c9sB : LState :=
  { lease := some (0, 30), flag := fun x => x == 2, now := 10 }

def c5doc1 : PObj :=
  .ocons "_mongoclaw_version" (.vint 3)
    (.ocons "title" (.vstr "Card declined")
      (.ocons "meta"
        (.vobj (.ocons "_ai_metadata" (.vobj (singleObj "model" (.vstr "m1")))
          (.ocons "owner" (.vstr "alice") .onil)))
        .onil))

def c5doc2 : PObj :=
  .ocons "_mongoclaw_version" (.vint 4)
    (.ocons "title" (.vstr "Card declined")
      (.ocons "meta"
        (.vobj (.ocons "_ai_metadata" (.vobj (singleObj "model" (.vstr "m2")))
          (.ocons "owner" (.vstr "alice") .onil)))
        .onil))

/-- C1: the spec says a non-fast-fail failure re-enqueues exactly when
`attempt + 1 < max_attempts` and otherwise dead-letters, so a failure at
`attempt == max_attempts - 1` goes to the DLQ.  The code's
`WorkItem.should_retry` tests `attempt < max_attempts` instead: at
`attempt = 2`, `max_attempts = 3` the worker schedules another retry with
`attempt = 3` rather than moving the item to the DLQ. -/
theorem c1_failure_at_last_allowed_attempt_retries :
    handleFailureActions
      { id := "wi-1", agentId := "ticket-classifier", document := .onil,
        documentId := "t1", sourceVersion := some 0,
        sourceDocumentHash := none, attempt := 2, maxAttempts := 3,
        priority := 0, idempotencyKey := none } =
      [QueueAction.enqueueRetry
        { id := "wi-1", agentId := "ticket-classifier", document := .onil,
          documentId := "t1", sourceVersion := some 0,
          sourceDocumentHash := none, attempt := 3, maxAttempts := 3,
          priority := 0, idempotencyKey := none },
       QueueAction.ack] := rfl

/-- C6: with backpressure enabled, fullness at or above the threshold and
priority at or above `min_priority_when_backpressured`, the item is
admitted for every configured overflow policy. -/
theorem c6_priority_bypass_admits (ws : WorkerSettingsR) (priority : Nat)
    (fullness : Rat) (resample : Nat → Rat)
    (henabled : ws.dispatchBackpressureEnabled = true)
    (hfull : ws.dispatchBackpressureThreshold ≤ fullness)
    (hprio : ws.dispatchMinPriorityWhenBackpressured ≤ priority) :
    applyBackpressureAdmission ws priority fullness resample = true := by
  unfold applyBackpressureAdmission
  rw [henabled]
  have h1 : ¬ fullness < ws.dispatchBackpressureThreshold := not_lt.mpr hfull
  simp [h1, hprio]

/-- C6 witness: a concrete drop-policy configuration under full pressure
with a bypassing priority. -/
theorem c6_priority_bypass_admits_witness :
    applyBackpressureAdmission
      { dispatchBackpressureEnabled := true,
        dispatchBackpressureThreshold := 4/5,
        dispatchMinPriorityWhenBackpressured := 5,
        dispatchOverflowPolicy := "drop",
        dispatchDeferMaxAttempts := 3 } 7 1 (fun _ => 1) = true :=
  c6_priority_bypass_admits _ 7 1 (fun _ => 1) rfl (by norm_num) (by norm_num)

/-- C7: a delete event with no full document is rejected for every agent
whose watch filter is set (for any filter evaluator), while an agent
without a filter that watches deletes still matches. -/
theorem c7_delete_without_full_document
    (matchesFilter : PObj → PObj → Bool) (ops : List ChangeOp)
    (wf : Option PObj) (hwf : truthyOptObj wf = true) :
    matchesAgent matchesFilter ChangeOp.delete none ops wf = false ∧
    (ops.contains ChangeOp.delete = true →
      matchesAgent matchesFilter ChangeOp.delete none ops none = true) := by
  constructor
  · unfold matchesAgent
    simp only [truthyOptObj, Bool.and_false, Bool.false_and, Bool.and_true,
      Bool.not_false, Bool.if_false_left]
    simp
    intro _
    exact ⟨rfl, hwf⟩
  · intro hops
    unfold matchesAgent
    simp [hops, truthyOptObj]

/-- C7 witness: a status filter rejects the delete; the filterless agent
matches. -/
theorem c7_delete_without_full_document_witness :
    matchesAgent (fun _ _ => true) ChangeOp.delete none [ChangeOp.delete]
      (some (singleObj "status" (.vstr "new"))) = false ∧
    matchesAgent (fun _ _ => true) ChangeOp.delete none [ChangeOp.delete]
      none = true := by
  have h := c7_delete_without_full_document (fun _ _ => true)
    [ChangeOp.delete] (some (singleObj "status" (.vstr "new"))) rfl
  exact ⟨h.1, h.2 rfl⟩

/-- C10: under a non-shadow consistency mode, an exception raised by the
result writer is converted to `(False, "write_error")`, the pipeline still
returns a success result with `written = false` and reason `write_error`,
and the worker acknowledges the message without a retry or DLQ move. -/
theorem c10_write_error_still_success (mode e : String) (item : WorkItemR)
    (hmode : mode ≠ "shadow") :
    executorWriteResultO mode (WriteOutcome.werror e) = (false, "write_error") ∧
    (pipelineWriteStage item (executorWriteResultO mode (WriteOutcome.werror e))).success = true ∧
    (pipelineWriteStage item (executorWriteResultO mode (WriteOutcome.werror e))).written = false ∧
    (pipelineWriteStage item (executorWriteResultO mode (WriteOutcome.werror e))).reason = "write_error" ∧
    processItemActions item
      (pipelineWriteStage item (executorWriteResultO mode (WriteOutcome.werror e))) =
      [QueueAction.ack] := by
  have hm : (mode == "shadow") = false := by
    simp [hmode]
  unfold executorWriteResultO
  rw [hm]
  simp [pipelineWriteStage, successResult, processItemActions]

/-- C10 witness: eventual consistency with a concrete writer exception. -/
theorem c10_write_error_still_success_witness :
    processItemActions
      { id := "wi-1", agentId := "a", document := .onil, documentId := "t1",
        sourceVersion := some 0, sourceDocumentHash := none, attempt := 0,
        maxAttempts := 3, priority := 0, idempotencyKey := none }
      (pipelineWriteStage
        { id := "wi-1", agentId := "a", document := .onil, documentId := "t1",
          sourceVersion := some 0, sourceDocumentHash := none, attempt := 0,
          maxAttempts := 3, priority := 0, idempotencyKey := none }
        (executorWriteResultO "eventual" (WriteOutcome.werror "boom"))) =
      [QueueAction.ack] :=
  (c10_write_error_still_success "eventual" "boom" _ (by decide)).2.2.2.2

/-- Helper: the strict parse of the C3 inputs raises the schema-validation
error. -/
theorem c3_rpParse_raises :
    rpParse true (fun _ => some c3parsed) "billing" (some c3schema) =
      Except.error "Schema validation failed: Missing required field: 'priority'" := by
  have ho : objErrors c3parsed c3schema =
      requiredErrors (objGet c3schema "required")
        (singleObj "category" (.vstr "billing")) ++
      propErrors (singleObj "category" (.vstr "billing"))
        (objGet c3schema "properties") := by
    rw [objErrors.eq_def]
    rfl
  have hp2 : propErrors (singleObj "category" (.vstr "billing"))
      (objGet c3schema "properties") = [] := by
    rw [propErrors.eq_def]
    rfl
  have ha : arrErrors c3parsed c3schema = [] := by
    rw [arrErrors.eq_def]
    rfl
  have hv : validateSchema c3parsed c3schema =
      ["Missing required field: 'priority'"] := by
    simp only [validateSchema.eq_def, ho, hp2, ha]
    rfl
  simp only [rpParse, Option.getD_some]
  rw [hv]
  rfl

/-- C3 counterexample: with a strictly configured parser and a schema (here
requiring a `priority` field), schema validation does fail inside
`ResponseParser.parse`, yet `Executor._parse_response` catches the error
and proceeds with the fallback content instead of failing the attempt. -/
theorem c3_strict_schema_failure_is_swallowed :
    rpParse true (fun _ => some c3parsed) "billing" (some c3schema) =
      Except.error "Schema validation failed: Missing required field: 'priority'" ∧
    executorParseResponse true (fun _ => some c3parsed) (some c3schema)
        "billing" = .vobj (fallbackRawObj "billing") := by
  refine ⟨c3_rpParse_raises, ?_⟩
  unfold executorParseResponse
  rw [c3_rpParse_raises]

/-- C3 (as the code behaves): when `ResponseParser.parse` raises — in
particular on a strict schema-validation failure — `Executor._parse_response`
catches the exception and proceeds with the fallback dict
`{"content": raw, "_raw": True}`; the parse stage never fails the attempt. -/
theorem c3_executor_swallows_parse_errors (strict : Bool)
    (extractJson : String → Option PVal) (schema : Option PObj)
    (content e : String)
    (h : rpParse strict extractJson content schema = Except.error e) :
    executorParseResponse strict extractJson schema content =
      .vobj (fallbackRawObj content) := by
  unfold executorParseResponse
  rw [h]

/-- C3 witness: the strict schema failure of the counterexample inputs goes
through the fallback path. -/
theorem c3_executor_swallows_parse_errors_witness :
    executorParseResponse true (fun _ => some c3parsed) (some c3schema)
      "billing" = .vobj (fallbackRawObj "billing") :=
  c3_executor_swallows_parse_errors true (fun _ => some c3parsed)
    (some c3schema) "billing"
    "Schema validation failed: Missing required field: 'priority'"
    c3_rpParse_raises

/-- C4 counterexample: two documents that differ only in the framework
field `_mongoclaw_version` produce different idempotency keys, because
`WorkItem.generate_idempotency_key` hashes the whole document without
removing framework fields. -/
theorem c4_framework_field_changes_key :
    eraseFramework (.vobj c4doc1) = eraseFramework (.vobj c4doc2) ∧
    dispatcherGenerateIdempotencyKey none c4item1 ≠
      dispatcherGenerateIdempotencyKey none c4item2 := by
  constructor
  · rfl
  · set_option maxRecDepth 100000 in decide

/-- C4 (as the code behaves): with deduplication enabled and no
idempotency-key template, the key is
`agent_id:document_id:md5(str(sorted(document.items())))[:8]` over the
full document, framework fields included. -/
theorem c4_idempotency_key_formula (tmpl : Option String) (w : WorkItemR)
    (_h : tmpl = none) :
    dispatcherGenerateIdempotencyKey tmpl w =
      w.agentId ++ ":" ++ w.documentId ++ ":" ++
        pyTake (md5Hex (pyStrSortedItems w.document)) 8 := rfl

/-- C4 witness: the formula evaluated at a concrete work item. -/
theorem c4_idempotency_key_formula_witness :
    dispatcherGenerateIdempotencyKey none c4item1 =
      "classifier" ++ ":" ++ "t1" ++ ":" ++
        pyTake (md5Hex (pyStrSortedItems c4doc1)) 8 :=
  c4_idempotency_key_formula none c4item1 rfl

/-- C8 counterexample: model validation accepts an execution config whose
`retry_delay_seconds` (10) exceeds `retry_max_delay_seconds` (1): no
validator relates the two delays. -/
theorem c8_base_delay_above_max_accepted :
    (mkExecutionConfig c8badConfig).isOk = true ∧
    ¬ (c8badConfig.retryDelaySeconds ≤ c8badConfig.retryMaxDelaySeconds) := by
  constructor
  · rfl
  · decide

/-- C8 (as the code behaves): every accepted configuration has positive
retry delays (but no base-below-max relation), `array_field` present for
the APPEND strategy and `path` present for the NESTED strategy; strategy
violations are rejected at construction. -/
theorem c8_validation_invariants (wc : WriteConfigR) (c : ExecutionConfigR)
    (hw : (mkWriteConfig wc).isOk = true)
    (hc : (mkExecutionConfig c).isOk = true) :
    (0 < c.retryDelaySeconds ∧ 0 < c.retryMaxDelaySeconds) ∧
    (wc.strategy = WriteStrategyT.append → truthyOptStr wc.arrayField = true) ∧
    (wc.strategy = WriteStrategyT.nested → truthyOptStr wc.path = true) := by
  unfold mkWriteConfig validateStrategyFields at hw
  unfold mkExecutionConfig at hc
  split_ifs at hw with h1 h2
  · simp [Except.isOk, Except.toBool] at hw
  · simp [Except.isOk, Except.toBool] at hw
  · split_ifs at hc with g1 g2 g3 g4 g5 g6 g7 g8
    all_goals try simp [Except.isOk, Except.toBool] at hc
    refine ⟨⟨by simpa using g2, by simpa using g3⟩, ?_, ?_⟩
    · intro hs
      by_contra ht
      have ht2 : truthyOptStr wc.arrayField = false := by
        revert ht
        cases truthyOptStr wc.arrayField <;> simp
      exact h1 (by rw [hs, ht2]; rfl)
    · intro hs
      by_contra ht
      have ht2 : truthyOptStr wc.path = false := by
        revert ht
        cases truthyOptStr wc.path <;> simp
      exact h2 (by rw [hs, ht2]; rfl)

/-- C8 witness: a valid append-strategy write config and a valid execution
config satisfy the surviving invariants. -/
theorem c8_validation_invariants_witness :
    ((0 : Rat) < (1 : Rat) ∧ (0 : Rat) < (60 : Rat)) ∧
    (WriteStrategyT.append = WriteStrategyT.append →
      truthyOptStr (some "ai_results") = true) ∧
    (WriteStrategyT.append = WriteStrategyT.nested →
      truthyOptStr (some "a.b") = true) :=
  c8_validation_invariants
    { strategy := WriteStrategyT.append, targetCollection := none,
      targetDatabase := none, fields := none, targetField := none,
      path := some "a.b", arrayField := some "ai_results",
      idempotencyKeyTemplate := none, includeMetadata := true,
      metadataField := "_ai_metadata" }
    { maxRetries := 3, retryDelaySeconds := 1, retryMaxDelaySeconds := 60,
      timeoutSeconds := 60, rateLimitRequests := none, costLimitUsd := none,
      tokenLimit := none, priority := 0, deduplicate := true,
      deduplicateWindowSeconds := 300, consistencyMode := "eventual",
      maxConcurrency := none, requireDocumentHashMatch := false }
    rfl rfl

mutual

theorem wiNorm_eq_erase : (v : PVal) →
    wiNormalizeValue (makeSerializable v) = eraseFramework v
  | .vstr _ => rfl
  | .vint _ => rfl
  | .vbool _ => rfl
  | .vnull => rfl
  | .vfloat _ => rfl
  | .vdt _ => rfl
  | .varr l => congrArg PVal.varr (wiNormArr_eq_erase l)
  | .vobj o => congrArg PVal.vobj (wiNormObj_eq_erase o)

theorem wiNormArr_eq_erase : (l : PArr) →
    wiNormalizeArr (makeSerializableArr l) = eraseFrameworkArr l
  | .anil => rfl
  | .acons v tl =>
      congrArg₂ PArr.acons (wiNorm_eq_erase v) (wiNormArr_eq_erase tl)

theorem wiNormObj_eq_erase : (o : PObj) →
    wiNormalizeForHash (makeSerializableObj o) = eraseFrameworkObj o
  | .onil => rfl
  | .ocons k v tl => by
      show wiNormalizeForHash
        (.ocons k (makeSerializable v) (makeSerializableObj tl)) = _
      by_cases hk : isFrameworkKey k = true
      · simp [wiNormalizeForHash, eraseFrameworkObj, hk, wiNormObj_eq_erase tl]
      · simp [wiNormalizeForHash, eraseFrameworkObj, hk,
          wiNormObj_eq_erase tl, wiNorm_eq_erase v]

end

mutual

theorem rwNorm_eq_erase : (v : PVal) → rwNormalizeForHash v = eraseFramework v
  | .vstr _ => rfl
  | .vint _ => rfl
  | .vbool _ => rfl
  | .vnull => rfl
  | .vfloat _ => rfl
  | .vdt _ => rfl
  | .varr l => congrArg PVal.varr (rwNormArr_eq_erase l)
  | .vobj o => congrArg PVal.vobj (rwNormObj_eq_erase o)

theorem rwNormArr_eq_erase : (l : PArr) →
    rwNormalizeArr l = eraseFrameworkArr l
  | .anil => rfl
  | .acons v tl =>
      congrArg₂ PArr.acons (rwNorm_eq_erase v) (rwNormArr_eq_erase tl)

theorem rwNormObj_eq_erase : (o : PObj) →
    rwNormalizeObj o = eraseFrameworkObj o
  | .onil => rfl
  | .ocons k v tl => by
      by_cases hk : isFrameworkKey k = true
      · simp [rwNormalizeObj, eraseFrameworkObj, hk, rwNormObj_eq_erase tl]
      · simp [rwNormalizeObj, eraseFrameworkObj, hk,
          rwNormObj_eq_erase tl, rwNorm_eq_erase v]

end

/-- C5: documents that differ only in the framework fields `_ai_metadata`
or `_mongoclaw_version` (at any object level, captured as equality after
erasing those fields everywhere) have the same dispatch-time
`source_document_hash`; the writer-side stable hash agrees with it on the
same inputs. -/
theorem c5_source_hash_framework_invariance (o o2 : PObj)
    (h : eraseFramework (.vobj o) = eraseFramework (.vobj o2)) :
    extractSourceDocumentHash (some (.vobj o)) =
      extractSourceDocumentHash (some (.vobj o2)) ∧
    stableDocumentHash o = stableDocumentHash o2 ∧
    extractSourceDocumentHash (some (.vobj o)) = some (stableDocumentHash o) := by
  have hobj : eraseFrameworkObj o = eraseFrameworkObj o2 := by
    simp only [eraseFramework] at h
    exact PVal.vobj.inj h
  have e2 : ∀ p : PObj, rwNormalizeForHash (.vobj p) =
      .vobj (eraseFrameworkObj p) := by
    intro p
    rw [rwNorm_eq_erase]
    rfl
  refine ⟨?_, ?_, ?_⟩
  · simp only [extractSourceDocumentHash]
    rw [wiNormObj_eq_erase o, wiNormObj_eq_erase o2, hobj]
  · unfold stableDocumentHash
    rw [e2 o, e2 o2, hobj]
  · simp only [extractSourceDocumentHash]
    unfold stableDocumentHash
    rw [wiNormObj_eq_erase o, e2 o]

theorem objGet_objSet_self : (o : PObj) → ∀ k v,
    objGet (objSet o k v) k = some v
  | .onil, k, v => by simp [objSet, objGet]
  | .ocons k2 v2 tl, k, v => by
      by_cases hk : (k2 == k) = true
      · simp [objSet, objGet, hk]
      · simp [objSet, objGet, hk, objGet_objSet_self tl k v]

theorem objGet_objSet_ne : (o : PObj) → ∀ k v k3, (k3 == k) = false →
    objGet (objSet o k v) k3 = objGet o k3
  | .onil, k, v, k3, h => by
      simp [objSet, objGet]
      intro he
      rw [he] at h
      simp at h
  | .ocons k2 v2 tl, k, v, k3, h => by
      by_cases hk : (k2 == k) = true
      · have hne : (k2 == k3) = false := by
          have h1 : k2 = k := by simpa using hk
          subst h1
          by_contra hx
          have h2 : k2 = k3 := by
            revert hx
            cases hq : (k2 == k3) <;> simp_all
          subst h2
          simp at h
        simp [objSet, objGet, hk, hne]
      · simp only [objSet, hk, Bool.false_eq_true, if_false]
        by_cases hk3 : (k2 == k3) = true
        · simp [objGet, hk3]
        · simp [objGet, hk3, objGet_objSet_ne tl k v k3 h]

theorem strategyBuildUpdate_no_inc (s : WriteStrategyT) (c : PObj)
    (p a : Option String) (u : PObj)
    (h : strategyBuildUpdate s c p a = Except.ok u) :
    objGet u "$inc" = none := by
  cases s <;> simp only [strategyBuildUpdate] at h <;> try split_ifs at h
  all_goals cases h
  all_goals rfl

theorem attachMetadata_preserves_inc (wc : WriteConfigR) (ai : AIResponseR)
    (wid : String) (aid : Option String) (nowIso : String) (upd : PObj) :
    objGet (attachMetadata wc ai wid aid nowIso upd) "$inc" =
      objGet upd "$inc" := by
  unfold attachMetadata
  by_cases hm : wc.includeMetadata = true
  · simp only [hm, if_true]
    cases hs : objGet upd "$set" with
    | none => exact objGet_objSet_ne upd "$set" _ "$inc" (by decide)
    | some v =>
        cases v <;> simp only []
        all_goals first
        | rfl
        | exact objGet_objSet_ne upd "$set" _ "$inc" (by decide)
  · simp [hm]

theorem attachVersionInc_sets_inc (upd : PObj)
    (h : objGet upd "$inc" = none) :
    objGet (attachVersionInc true upd) "$inc" =
      some (.vobj (singleObj "_mongoclaw_version" (.vint 1))) := by
  unfold attachVersionInc
  rw [h]
  simpa using objGet_objSet_self upd "$inc"
    (.vobj (objSet .onil "_mongoclaw_version" (.vint 1)))

theorem buildUpdate_strict_has_inc (wc : WriteConfigR) (parsed : PObj)
    (ai : AIResponseR) (wid : String) (aid : Option String) (nowIso : String)
    (u : PObj) (h : buildUpdate wc parsed ai wid aid true nowIso = Except.ok u) :
    objGet u "$inc" = some (.vobj (singleObj "_mongoclaw_version" (.vint 1))) := by
  unfold buildUpdate at h
  cases hs : strategyBuildUpdate wc.strategy (buildUpdateContent wc parsed)
      wc.path wc.arrayField with
  | error e => rw [hs] at h; cases h
  | ok upd =>
      rw [hs] at h
      cases h
      have hni : objGet (attachMetadata wc ai wid aid nowIso upd) "$inc" = none := by
        rw [attachMetadata_preserves_inc]
        exact strategyBuildUpdate_no_inc _ _ _ _ _ hs
      exact attachVersionInc_sets_inc _ hni

theorem strictFilter_version_semantics (documentId : String)
    (sv : Option Int) (doc : PObj) :
    versionGuardMatches (buildUpdateFilter documentId sv true).guard doc = true ↔
      docEffectiveVersion doc = some ((sv.getD 0 : Int) : Rat) := by
  unfold buildUpdateFilter
  by_cases h0 : (sv.getD 0 == 0) = true
  · have hz : sv.getD 0 = 0 := by simpa using h0
    simp only [Bool.not_true, Bool.false_eq_true, if_false, h0, if_true]
    unfold versionGuardMatches docEffectiveVersion
    rw [hz]
    cases hv : objGet doc "_mongoclaw_version" with
    | none => simp
    | some v =>
        cases v <;> simp [beq_iff_eq]
  · have hz : ¬ sv.getD 0 = 0 := by simpa using h0
    simp only [Bool.not_true, Bool.false_eq_true, if_false, h0, if_true]
    unfold versionGuardMatches docEffectiveVersion
    cases hv : objGet doc "_mongoclaw_version" with
    | none =>
        simp only [iff_false, Option.some.injEq]
        constructor
        · intro hx
          cases hx
        · intro hx
          exfalso
          apply hz
          have := hx
          exact_mod_cast this.symm
    | some v =>
        cases v <;> simp [beq_iff_eq]

theorem writerWrite_zero_match_conflict (agent : AgentR) (documentId : String)
    (ai : AIResponseR) (wid : String) (ik sdh : Option String) (sv : Option Int)
    (edh : Bool) (keys : List String) (docs : List (String × PObj))
    (nowIso : String) (u : PObj)
    (hidem : (truthyOptStr ik && keys.contains (ik.getD "")) = false)
    (hbuild : buildUpdate agent.write (writerParsedContent ai) ai wid
      (some agent.id) true nowIso = Except.ok u)
    (hhash : (edh && truthyOptStr sdh &&
      !matchesSourceHash docs documentId (sdh.getD "")) = false)
    (hmatch : docs.any (fun p =>
      filterMatchesDoc (buildUpdateFilter documentId sv true) p.1 p.2) = false) :
    writerWrite agent documentId ai wid ik sv true sdh edh keys docs nowIso =
      WriteOutcome.result false "strict_version_conflict" := by
  unfold writerWrite
  rw [hidem]
  simp only [Bool.false_eq_true, if_false]
  rw [hbuild]
  simp only [hhash, Bool.false_eq_true, if_false, hmatch, Bool.not_false, if_true]

/-- C2: under `strict_post_commit` the writeback's version guard holds
exactly when the stored `_mongoclaw_version` (absent read as 0) equals the
work item's `source_version` (None read as 0); the built update carries
`$inc: {_mongoclaw_version: 1}`; and when the guarded filter matches no
document the write returns not-written with reason
`strict_version_conflict` instead of writing. -/
theorem c2_strict_post_commit_guard (agent : AgentR) (documentId : String)
    (ai : AIResponseR) (wid : String) (ik sdh : Option String)
    (sv : Option Int) (edh : Bool) (keys : List String)
    (docs : List (String × PObj)) (nowIso : String) (u : PObj)
    (hidem : (truthyOptStr ik && keys.contains (ik.getD "")) = false)
    (hbuild : buildUpdate agent.write (writerParsedContent ai) ai wid
      (some agent.id) true nowIso = Except.ok u)
    (hhash : (edh && truthyOptStr sdh &&
      !matchesSourceHash docs documentId (sdh.getD "")) = false)
    (hmatch : docs.any (fun p =>
      filterMatchesDoc (buildUpdateFilter documentId sv true) p.1 p.2) = false) :
    (∀ doc : PObj,
      versionGuardMatches (buildUpdateFilter documentId sv true).guard doc = true ↔
        docEffectiveVersion doc = some ((sv.getD 0 : Int) : Rat)) ∧
    objGet u "$inc" = some (.vobj (singleObj "_mongoclaw_version" (.vint 1))) ∧
    writerWrite agent documentId ai wid ik sv true sdh edh keys docs nowIso =
      WriteOutcome.result false "strict_version_conflict" :=
  ⟨fun doc => strictFilter_version_semantics documentId sv doc,
   buildUpdate_strict_has_inc _ _ _ _ _ _ _ hbuild,
   writerWrite_zero_match_conflict agent documentId ai wid ik sdh sv edh keys
     docs nowIso u hidem hbuild hhash hmatch⟩

/-- C2 witness: a strict write against a document concurrently bumped from
version 3 to 4 matches nothing and reports `strict_version_conflict`; the
filter semantics and the `$inc` are checked at concrete inputs. -/
theorem c2_strict_post_commit_guard_witness :
    (versionGuardMatches (buildUpdateFilter "t1" (some 3) true).guard
        c2storedDoc = true ↔
      docEffectiveVersion c2storedDoc =
        some (((some 3 : Option Int).getD 0 : Int) : Rat)) ∧
    objGet c2update "$inc" =
      some (.vobj (singleObj "_mongoclaw_version" (.vint 1))) ∧
    writerWrite c2agent "t1" c2ai "wi-1" none (some 3) true none false []
        c2docs "2026-01-01T00:00:00" =
      WriteOutcome.result false "strict_version_conflict" := by
  have h := c2_strict_post_commit_guard c2agent "t1" c2ai "wi-1" none none
    (some 3) false [] c2docs "2026-01-01T00:00:00" c2update rfl rfl rfl rfl
  exact ⟨h.1 c2storedDoc, h.2.1, h.2.2⟩

/-- C9 counterexample: replica 0 acquires the lease (duration 30); the
clock passes the expiry; replica 1 then acquires through the
expired-lease disjunct before replica 0 ever runs its next renewal — and
both replicas report `is_leader = true` at the same instant.  The claim's
"at most one replica's is_leader is true at any instant" is false. -/
theorem c9_two_leaders_after_expiry :
    ((lrun { leaseDuration := 30 }
        [LAction.loopStep 0, LAction.tick 31, LAction.loopStep 1]
        { lease := none, flag := fun _ => false, now := 0 }).flag 0 = true) ∧
    ((lrun { leaseDuration := 30 }
        [LAction.loopStep 0, LAction.tick 31, LAction.loopStep 1]
        { lease := none, flag := fun _ => false, now := 0 }).flag 1 = true) :=
  ⟨rfl, rfl⟩

/-- C9 (as the code behaves): a replica raises `is_leader` only through the
conditional update that matches only when the lease is absent, already its
own, or expired; while a lease is unexpired, an election-loop pass of any
non-holder replica leaves the state unchanged; and a renewal that matches
no document (the lease is absent or held by someone else) demotes the
replica.  Uniqueness therefore holds only until the lease expires: after
expiry a second replica can acquire before the stale holder demotes. -/
theorem c9_lease_guard_and_demotion (cfg : LeaderCfg) (s : LState)
    (r h e : Nat) :
    (s.lease = some (h, e) → ¬ (e < s.now) → r ≠ h → s.flag r = false →
      lstep cfg (LAction.loopStep r) s = s) ∧
    (s.flag r = false → (lstep cfg (LAction.loopStep r) s).flag r = true →
      tryAcquireMatches s r = true) ∧
    (s.flag r = true → (∀ e2, s.lease ≠ some (r, e2)) →
      (lstep cfg (LAction.loopStep r) s).flag r = false) := by
  refine ⟨?_, ?_, ?_⟩
  · intro hl hexp hne hf
    simp only [lstep, electionLoopStep, hf, Bool.false_eq_true, if_false]
    unfold tryAcquire
    have hm : tryAcquireMatches s r = false := by
      unfold tryAcquireMatches
      rw [hl]
      have h1 : (h == r) = false := by
        simp [Ne.symm hne]
      simp [h1, hexp]
    rw [hm]
    simp
  · intro hf hflag
    by_contra hm
    have hm2 : tryAcquireMatches s r = false := by
      revert hm
      cases tryAcquireMatches s r <;> simp
    have hid : lstep cfg (LAction.loopStep r) s = s := by
      simp only [lstep, electionLoopStep, hf, Bool.false_eq_true, if_false,
        tryAcquire, hm2]
    rw [hid, hf] at hflag
    cases hflag
  · intro hf hnl
    simp only [lstep, electionLoopStep, hf, if_true]
    cases hl : s.lease with
    | none => simp [updFlag]
    | some he =>
        obtain ⟨h1, e1⟩ := he
        have hne : (h1 == r) = false := by
          by_contra hx
          have h2 : h1 = r := by
            revert hx
            cases hq : (h1 == r) <;> simp_all
          exact hnl e1 (by rw [hl, h2])
        simp [hne, updFlag]

/-- C9 witness: while replica 0's lease is unexpired a loop pass of
replica 1 changes nothing, and a replica that believes itself leader while
the lease document is held by another demotes on its renewal pass. -/
theorem c9_lease_guard_and_demotion_witness :
    lstep { leaseDuration := 30 } (LAction.loopStep 1) c9sA = c9sA ∧
    (lstep { leaseDuration := 30 } (LAction.loopStep 2) c9sB).flag 2 = false :=
  ⟨(c9_lease_guard_and_demotion { leaseDuration := 30 } c9sA 1 0 30).1
      rfl (by decide) (by decide) rfl,
   (c9_lease_guard_and_demotion { leaseDuration := 30 } c9sB 2 0 30).2.2
      rfl (by intro e2; simp [c9sB])⟩

/-- C5 witness: two concrete documents differing in a top-level
`_mongoclaw_version` and a nested `_ai_metadata` hash identically, and the
writer-side hash agrees. -/
theorem c5_source_hash_framework_invariance_witness :
    extractSourceDocumentHash (some (.vobj c5doc1)) =
      extractSourceDocumentHash (some (.vobj c5doc2)) ∧
    stableDocumentHash c5doc1 = stableDocumentHash c5doc2 ∧
    extractSourceDocumentHash (some (.vobj c5doc1)) =
      some (stableDocumentHash c5doc1) :=
  c5_source_hash_framework_invariance c5doc1 c5doc2 rfl
